import Mathlib

/-!
# Verification of the clouddetect cache/refresh coordinator

Shallow embedding of the `clouddetect` Go package (clouddetect.go,
amazon.go, google.go, azure source).  Machine time (`time.Time`) is
modelled as `Nat` (nanoseconds since an arbitrary epoch; the Go zero
time is `0`); durations are `Nat` in the same unit.  `t1.Before(t2)`
is `t1 < t2`, `t1.After(t2)` is `t2 < t1`, `t.Add(d)` is `t + d`.

All effectful inputs of one `refreshCache` run (the three provider
fetchers, the snapshot file on disk, the lock-file stat results) are
gathered in an `Env` record, so the Go functions become pure state
transformers `ClientState → Env → ...`.  Each run also produces a
trace of the externally visible steps it took, so control-flow claims
(which branch ran, in which order) can be stated as facts about the
trace.
-/

namespace Clouddetect

/-- `net.IPNet`: a network address together with a mask.  An IP address
is modelled as a `Nat` (the bytes of the address read as one number);
`Contains` masks both the network address and the query address with
the mask and compares, exactly as the Go standard library does
byte-wise. -/
structure IPNet where
  addr : Nat
  mask : Nat
deriving DecidableEq, Repr

/-- `(*net.IPNet).Contains`: the query IP masked with the net mask
equals the network address masked with the net mask. -/
def IPNet.contains (n : IPNet) (ip : Nat) : Bool :=
  Nat.land n.addr n.mask == Nat.land ip n.mask

/-- `Response` from clouddetect.go: provider name, region, subnet. -/
structure Response where
  providerName : String
  region : String
  subnet : IPNet
deriving DecidableEq, Repr

/-- `ProviderAmazon` constant. -/
def ProviderAmazon : String := "Amazon Web Services"

/-- `ProviderGoogle` constant. -/
def ProviderGoogle : String := "Google Cloud"

/-- `ProviderMicrosoft` constant. -/
def ProviderMicrosoft : String := "Microsoft Azure"

/-- The `cacheSource` string field: `""`, `"Web"` (cacheSourceWeb) or
`"Disk"` (cacheSourceDisk). -/
inductive Source where
  | unset
  | web
  | disk
deriving DecidableEq, Repr

/-- The errors of the package.  Fetcher errors and filesystem errors
carry an opaque message; the three named sentinel errors are their own
constructors, mirroring the distinct `errors.New` values compared with
`==` in the Go code. -/
inductive CdError where
  | notCloudIP
  | cacheRefreshInProgress
  | diskCacheExpired
  | fetchError (msg : String)
  | ioError (msg : String)
deriving DecidableEq, Repr

/-- The mutable fields of `Client` (the cache store) together with the
per-client configuration (`TTL`, whether `CacheFilePath` is non-empty,
`CacheRefreshTimeout`).  The `cacheMutex` is not modelled: the
embedding gives each Go critical section sequential semantics. -/
structure ClientState where
  subnetCache : List Response
  cacheWriteTime : Nat
  cacheSource : Source
  cacheRefreshInProgress : Bool
  ttl : Nat
  cacheFilePathSet : Bool
  cacheRefreshTimeout : Nat
deriving DecidableEq, Repr

/-- `NewClient`: empty cache, zero write time, flag clear. -/
def NewClient (ttl : Nat) (pathSet : Bool) (timeout : Nat) : ClientState :=
  { subnetCache := []
    cacheWriteTime := 0
    cacheSource := Source.unset
    cacheRefreshInProgress := false
    ttl := ttl
    cacheFilePathSet := pathSet
    cacheRefreshTimeout := timeout }

/-! ## Snapshot serialization

The Go code serializes `diskCache{SubnetCache: ...}` with
`json.MarshalIndent` and reads it back with `json.Unmarshal`.  The
embedding models the byte stream as a token list: each record
contributes its three fields in order, and the decoder reads them back
greedily.  This keeps exactly what the round-trip claim is about —
order and field preservation through an external byte representation. -/

/-- One serialized JSON token. -/
inductive Tok where
  | str (s : String)
  | num (n : Nat)
deriving DecidableEq, Repr

/-- Serialization of one record: providerName, region, subnet. -/
def encodeResponse (r : Response) : List Tok :=
  [Tok.str r.providerName, Tok.str r.region,
   Tok.num r.subnet.addr, Tok.num r.subnet.mask]

/-- `json.MarshalIndent` of the `diskCache` wrapper: the records in
order. -/
def encodeCache : List Response → List Tok
  | [] => []
  | r :: rs => encodeResponse r ++ encodeCache rs

/-- `json.Unmarshal` back into `diskCache`: greedily read records;
`none` models an unmarshal error on malformed data. -/
def decodeCache : List Tok → Option (List Response)
  | [] => some []
  | Tok.str p :: Tok.str rg :: Tok.num a :: Tok.num m :: rest =>
    match decodeCache rest with
    | some rs => some ({ providerName := p, region := rg, subnet := ⟨a, m⟩ } :: rs)
    | none => none
  | _ => none

/-- The snapshot file: its modification time and its byte content. -/
structure DiskFile where
  modTime : Nat
  data : List Tok
deriving DecidableEq, Repr

/-- The file `refreshCacheFromWeb` writes when it persists a record
list at time `t`. -/
def persistSnapshot (rs : List Response) (t : Nat) : DiskFile :=
  ⟨t, encodeCache rs⟩

/-! ## Environment of one refresh run -/

/-- Result of one `os.Stat` on the lock file inside the wait loop. -/
inductive WaitStat where
  | present
  | absent
  | statErr
deriving DecidableEq, Repr

/-- All external inputs consumed by one `refreshCache` call.  The
three fetcher fields are the results `getAmazonCIDRs`,
`getGoogleCIDRs`, `getMicrosoftCIDRs` would return; `diskFile` is the
snapshot file seen by the initial disk check (`none`: open fails);
`diskFileAfterWait` is the snapshot as re-read after the wait loop saw
the lock file disappear; `lockStat` is the initial `os.Stat` of the
lock file (`some mtime` when it exists, `none` when stat errors, which
the code treats as absence); `waitStats i` is the stat result of the
i-th wait-loop iteration. -/
structure Env where
  now : Nat
  amazon : Except String (List Response)
  google : Except String (List Response)
  microsoft : Except String (List Response)
  diskFile : Option DiskFile
  diskFileAfterWait : Option DiskFile
  lockStat : Option Nat
  waitStats : Nat → WaitStat

/-- The three fetchers invoked sequentially in the fixed order Amazon,
Google, Microsoft, results appended in that order; the first error
aborts (later fetchers are not consulted). -/
def fetchWeb (env : Env) : Except String (List Response) :=
  match env.amazon with
  | Except.error e => Except.error e
  | Except.ok a =>
    match env.google with
    | Except.error e => Except.error e
    | Except.ok g =>
      match env.microsoft with
      | Except.error e => Except.error e
      | Except.ok m => Except.ok (a ++ g ++ m)

/-! ## The state transformers -/

/-- `(*Client).refreshCacheFromWeb` without its logging and disk write
(the disk write never touches `ClientState`; it is modelled separately
by `persistSnapshot`).  On any fetcher error the error is returned and
the state is untouched; on success the full merged list is committed:
records, writeTime := now, source := Web, flag cleared. -/
def refreshCacheFromWeb (st : ClientState) (env : Env) :
    ClientState × Option CdError :=
  match fetchWeb env with
  | Except.error e => (st, some (CdError.fetchError e))
  | Except.ok rs =>
    ({ st with subnetCache := rs
               cacheWriteTime := env.now
               cacheSource := Source.web
               cacheRefreshInProgress := false }, none)

/-- `(*Client).refreshCacheFromDisk`: open the snapshot (failure is an
I/O error), compare `minModTime` with the file's mtime
(`minModTime.After(modTime)` fails with `ErrDiskCacheExpired`), then
unmarshal and commit: records, writeTime := mtime, source := Disk,
flag cleared. -/
def refreshCacheFromDisk (st : ClientState) (file : Option DiskFile)
    (minModTime : Nat) : ClientState × Option CdError :=
  match file with
  | none => (st, some (CdError.ioError "open"))
  | some f =>
    if f.modTime < minModTime then
      (st, some CdError.diskCacheExpired)
    else
      match decodeCache f.data with
      | none => (st, some (CdError.ioError "unmarshal"))
      | some rs =>
        ({ st with subnetCache := rs
                   cacheWriteTime := f.modTime
                   cacheSource := Source.disk
                   cacheRefreshInProgress := false }, none)

/-- Externally visible steps of a refresh run, for stating
control-flow claims. -/
inductive Event where
  | begun
  | diskLoad (minModTime : Nat)
  | statLock
  | removeLock
  | createLock
  | webFetch
deriving DecidableEq, Repr

/-- Result of one `refreshCache` run: final state, returned error (if
any), trace of steps taken. -/
structure RunResult where
  state : ClientState
  err : Option CdError
  trace : List Event
deriving Repr

/-- Outcome of the lock-file wait loop. -/
inductive WaitOutcome where
  | timeout
  | lockGone
  | statFailed
deriving DecidableEq, Repr

/-- The wait loop body: each iteration sleeps 5s then stats the lock
file; `present` continues, `absent` exits to the disk reload,
`statErr` exits to the web fetch; exhausting the fuel is the
`CacheRefreshTimeout` elapsing with the lock still present. -/
def waitLoopFrom (stats : Nat → WaitStat) : Nat → Nat → WaitOutcome
  | 0, _ => WaitOutcome.timeout
  | fuel + 1, i =>
    match stats i with
    | WaitStat.present => waitLoopFrom stats fuel (i + 1)
    | WaitStat.absent => WaitOutcome.lockGone
    | WaitStat.statErr => WaitOutcome.statFailed

/-- Number of 5-second sleeps the Go loop
`for start.Add(timeout).After(now)` performs when every iteration
takes exactly the 5s sleep: the k-th stat happens iff
`5s * (k-1) < timeout`, i.e. `ceil(timeout / 5s)` iterations, with the
timeout measured here in the same unit as all durations and the
5-second interval written as `fiveSeconds`. -/
def fiveSeconds : Nat := 5000

/-- Ceiling division of the refresh timeout by the 5s sleep interval:
the wait-loop iteration budget. -/
def waitIterations (timeout : Nat) : Nat :=
  (timeout + (fiveSeconds - 1)) / fiveSeconds

/-- The lock-file stage of `refreshCache` (everything from the
`os.Stat(c.lockFilePath())` on): stale lock is removed and the run
proceeds directly to the web fetch; fresh lock enters the wait loop;
no lock creates one and proceeds to the web fetch. -/
def refreshCacheLockStage (st1 : ClientState) (env : Env) : RunResult :=
  match env.lockStat with
  | some lockM =>
    if lockM + st1.ttl < env.now then
      let p := refreshCacheFromWeb st1 env
      ⟨p.1, p.2, [Event.statLock, Event.removeLock, Event.webFetch]⟩
    else
      match waitLoopFrom env.waitStats (waitIterations st1.cacheRefreshTimeout) 0 with
      | WaitOutcome.lockGone =>
        let p := refreshCacheFromDisk st1 env.diskFileAfterWait 0
        ⟨p.1, p.2, [Event.statLock, Event.diskLoad 0]⟩
      | WaitOutcome.statFailed =>
        let p := refreshCacheFromWeb st1 env
        ⟨p.1, p.2, [Event.statLock, Event.webFetch]⟩
      | WaitOutcome.timeout =>
        let p := refreshCacheFromWeb st1 env
        ⟨p.1, p.2, [Event.statLock, Event.webFetch]⟩
  | none =>
    let p := refreshCacheFromWeb st1 env
    ⟨p.1, p.2, [Event.createLock, Event.webFetch]⟩

/-- Body of `(*Client).refreshCache` after the in-progress flag has
been set.  With a cache file path: try the disk first; if it loaded
and its mtime is within TTL of now, done; otherwise fall through to
the lock-file stage.  Without a path: straight to the web fetch. -/
def refreshCacheLocked (st0 : ClientState) (env : Env) (minModTime : Nat) :
    RunResult :=
  if st0.cacheFilePathSet then
    let p := refreshCacheFromDisk st0 env.diskFile minModTime
    if p.2 = none ∧ env.now < p.1.cacheWriteTime + p.1.ttl then
      ⟨p.1, none, [Event.diskLoad minModTime]⟩
    else
      let r := refreshCacheLockStage p.1 env
      ⟨r.state, r.err, Event.diskLoad minModTime :: r.trace⟩
  else
    let p := refreshCacheFromWeb st0 env
    ⟨p.1, p.2, [Event.webFetch]⟩

/-- `(*Client).refreshCache`: fail fast with
`ErrCacheRefreshInProgress` when the flag is already set (state
untouched), else set the flag and run the body. -/
def refreshCache (st : ClientState) (env : Env) (minModTime : Nat) :
    RunResult :=
  if st.cacheRefreshInProgress then
    ⟨st, some CdError.cacheRefreshInProgress, []⟩
  else
    let r := refreshCacheLocked { st with cacheRefreshInProgress := true } env minModTime
    ⟨r.state, r.err, Event.begun :: r.trace⟩

/-- Public `(*Client).RefreshCache`: `refreshCache(false, c.cacheWriteTime)`. -/
def RefreshCache (st : ClientState) (env : Env) : RunResult :=
  refreshCache st env st.cacheWriteTime

/-! ## Resolve -/

/-- The linear scan at the end of `Resolve`: first record whose subnet
contains the IP, else `ErrNotCloudIP`. -/
def scanCache : List Response → Nat → Except CdError Response
  | [], _ => Except.error CdError.notCloudIP
  | r :: rs, ip =>
    if r.subnet.contains ip then Except.ok r else scanCache rs ip

/-- Which refresh `Resolve` triggered, if any; the async mode records
the `minModTime` handed to the background goroutine. -/
inductive RefreshMode where
  | syncRefresh
  | asyncRefresh (minModTime : Nat)
  | noRefresh
deriving DecidableEq, Repr

/-- Result of one `Resolve` call. -/
structure ResolveResult where
  state : ClientState
  result : Except CdError Response
  mode : RefreshMode
  refreshTrace : List Event
deriving Repr

/-- `(*Client).Resolve` with sequential semantics (the double-checked
locking collapses to re-testing the same condition).  Empty-or-stale
cache: re-check staleness; if stale and empty, run `refreshCache`
synchronously (its error is discarded) and scan the refreshed cache;
if stale and non-empty, bump writeTime to now, hand the old writeTime
to a background refresh (not executed here — the scan uses the records
already held); otherwise scan the current cache. -/
def resolve (st : ClientState) (env : Env) (ip : Nat) : ResolveResult :=
  if st.subnetCache.isEmpty || st.cacheWriteTime + st.ttl < env.now then
    if st.cacheWriteTime + st.ttl < env.now then
      if st.subnetCache.isEmpty then
        let r := refreshCache st env st.cacheWriteTime
        ⟨r.state, scanCache r.state.subnetCache ip, RefreshMode.syncRefresh, r.trace⟩
      else
        let st2 := { st with cacheWriteTime := env.now }
        ⟨st2, scanCache st2.subnetCache ip,
          RefreshMode.asyncRefresh st.cacheWriteTime, []⟩
    else
      ⟨st, scanCache st.subnetCache ip, RefreshMode.noRefresh, []⟩
  else
    ⟨st, scanCache st.subnetCache ip, RefreshMode.noRefresh, []⟩

/-! ## Sample data and environments used by witnesses -/

/-- A sample Amazon record: subnet 16/240 contains the IPs 16..31. -/
def rA : Response := ⟨ProviderAmazon, "us-east-1", ⟨16, 240⟩⟩

/-- A sample Google record: subnet 32/240 contains the IPs 32..47. -/
def rG : Response := ⟨ProviderGoogle, "", ⟨32, 240⟩⟩

/-- A sample Microsoft record: subnet 48/240 contains the IPs 48..63. -/
def rM : Response := ⟨ProviderMicrosoft, "westus", ⟨48, 240⟩⟩

/-- An environment with no snapshot file and no lock file, given
fetcher results and a clock. -/
def envNoDisk (a g m : Except String (List Response)) (now : Nat) : Env :=
  { now := now
    amazon := a
    google := g
    microsoft := m
    diskFile := none
    diskFileAfterWait := none
    lockStat := none
    waitStats := fun _ => WaitStat.present }

/-! ## Helper lemmas -/

theorem scanCache_eq_notCloudIP (l : List Response) (ip : Nat)
    (h : ∀ r ∈ l, r.subnet.contains ip = false) :
    scanCache l ip = Except.error CdError.notCloudIP := by
  induction l with
  | nil => rfl
  | cons r rs ih =>
    have hr : r.subnet.contains ip = false := h r (by simp)
    simp only [scanCache, hr, if_false, Bool.false_eq_true]
    exact ih fun s hs => h s (by simp [hs])

theorem scanCache_first_match (l1 : List Response) (r : Response)
    (l2 : List Response) (ip : Nat)
    (h1 : ∀ s ∈ l1, s.subnet.contains ip = false)
    (hr : r.subnet.contains ip = true) :
    scanCache (l1 ++ r :: l2) ip = Except.ok r := by
  induction l1 with
  | nil => simp [scanCache, hr]
  | cons s l1 ih =>
    have hs : s.subnet.contains ip = false := h1 s (by simp)
    simp only [List.cons_append, scanCache, hs, if_false, Bool.false_eq_true]
    exact ih fun x hx => h1 x (by simp [hx])

theorem decodeCache_encodeCache (rs : List Response) :
    decodeCache (encodeCache rs) = some rs := by
  induction rs with
  | nil => rfl
  | cons r rs ih =>
    obtain ⟨p, rg, a, m⟩ := r
    simp [encodeCache, encodeResponse, decodeCache, ih]

theorem resolve_result_is_scan (st : ClientState) (env : Env) (ip : Nat) :
    (resolve st env ip).result =
      scanCache (resolve st env ip).state.subnetCache ip := by
  unfold resolve
  split <;> [skip; rfl]
  split <;> [skip; rfl]
  split <;> rfl

/-! ## Claims -/

/-- C1: `Resolve` scans the cached records linearly in fetch order
(all Amazon records, then all Google, then all Microsoft — the order
`refreshCacheFromWeb` committed them in) and returns the first record
whose subnet contains the IP; if no cached record's subnet contains
the IP it returns `ErrNotCloudIP`. -/
theorem c1_resolve_scans_in_fetch_order :
    (∀ st env ip, (resolve st env ip).result =
        scanCache (resolve st env ip).state.subnetCache ip) ∧
    (∀ l ip, (∀ r ∈ l, r.subnet.contains ip = false) →
        scanCache l ip = Except.error CdError.notCloudIP) ∧
    (∀ l1 r l2 ip, (∀ s ∈ l1, s.subnet.contains ip = false) →
        r.subnet.contains ip = true →
        scanCache (l1 ++ r :: l2) ip = Except.ok r) ∧
    (∀ st env a g m, env.amazon = Except.ok a → env.google = Except.ok g →
        env.microsoft = Except.ok m →
        (refreshCacheFromWeb st env).1.subnetCache = a ++ g ++ m) := by
  refine ⟨resolve_result_is_scan, scanCache_eq_notCloudIP, scanCache_first_match,
    fun st env a g m ha hg hm => ?_⟩
  simp [refreshCacheFromWeb, fetchWeb, ha, hg, hm]

/-- Witness for C1 at concrete inputs: the Google record wins for an
IP only it contains, and an IP outside every subnet yields
`ErrNotCloudIP`. -/
theorem c1_resolve_scans_in_fetch_order_witness :
    scanCache ([rA] ++ rG :: [rM]) 33 = Except.ok rG ∧
    scanCache [rA, rG, rM] 100 = Except.error CdError.notCloudIP := by
  constructor
  · exact c1_resolve_scans_in_fetch_order.2.2.1 [rA] rG [rM] 33
      (by decide) (by decide)
  · exact c1_resolve_scans_in_fetch_order.2.1 [rA, rG, rM] 100 (by decide)

/-- C9: the snapshot load fails with `ErrDiskCacheExpired` exactly
when `minModTime` is after the file's modification time; otherwise,
for a well-formed file, it commits the parsed records with
writeTime = the file's mtime and source = Disk. -/
theorem c9_disk_load_expiry :
    (∀ st f m, ((refreshCacheFromDisk st (some f) m).2 =
        some CdError.diskCacheExpired ↔ f.modTime < m)) ∧
    (∀ st f m rs, ¬ f.modTime < m → decodeCache f.data = some rs →
        refreshCacheFromDisk st (some f) m =
          ({ st with subnetCache := rs
                     cacheWriteTime := f.modTime
                     cacheSource := Source.disk
                     cacheRefreshInProgress := false }, none)) := by
  constructor
  · intro st f m
    by_cases h : f.modTime < m
    · simp [refreshCacheFromDisk, h]
    · cases hd : decodeCache f.data <;> simp [refreshCacheFromDisk, h, hd]
  · intro st f m rs h hd
    simp [refreshCacheFromDisk, h, hd]

/-- Witness for C9: a persisted one-record snapshot with mtime 5
loaded with `minModTime = 0` commits that record. -/
theorem c9_disk_load_expiry_witness :
    refreshCacheFromDisk (NewClient 10 true 0) (some (persistSnapshot [rA] 5)) 0 =
      ({ NewClient 10 true 0 with
          subnetCache := [rA]
          cacheWriteTime := 5
          cacheSource := Source.disk
          cacheRefreshInProgress := false }, none) :=
  c9_disk_load_expiry.2 (NewClient 10 true 0) (persistSnapshot [rA] 5) 0 [rA]
    (by decide) (decodeCache_encodeCache [rA])

/-- C10: a record list committed from a web fetch, persisted to the
snapshot file, then loaded back with `minModTime` = zero time, equals
the original list — order and all three fields preserved. -/
theorem c10_snapshot_round_trip :
    (∀ rs, decodeCache (encodeCache rs) = some rs) ∧
    (∀ st rs t, refreshCacheFromDisk st (some (persistSnapshot rs t)) 0 =
        ({ st with subnetCache := rs
                   cacheWriteTime := t
                   cacheSource := Source.disk
                   cacheRefreshInProgress := false }, none)) ∧
    (∀ st env rs, fetchWeb env = Except.ok rs →
        (refreshCacheFromWeb st env).1.subnetCache = rs) := by
  refine ⟨decodeCache_encodeCache, fun st rs t => ?_, fun st env rs h => ?_⟩
  · simp [refreshCacheFromDisk, persistSnapshot, decodeCache_encodeCache]
  · simp [refreshCacheFromWeb, h]

/-- Witness for C10: the three sample records round-trip through the
snapshot file. -/
theorem c10_snapshot_round_trip_witness :
    (refreshCacheFromWeb (NewClient 10 false 0)
        (envNoDisk (Except.ok [rA]) (Except.ok [rG]) (Except.ok [rM]) 50)).1.subnetCache =
      [rA, rG, rM] ∧
    refreshCacheFromDisk (NewClient 10 false 0)
        (some (persistSnapshot [rA, rG, rM] 50)) 0 =
      ({ NewClient 10 false 0 with
          subnetCache := [rA, rG, rM]
          cacheWriteTime := 50
          cacheSource := Source.disk
          cacheRefreshInProgress := false }, none) :=
  ⟨c10_snapshot_round_trip.2.2 (NewClient 10 false 0)
      (envNoDisk (Except.ok [rA]) (Except.ok [rG]) (Except.ok [rM]) 50)
      [rA, rG, rM] rfl,
   c10_snapshot_round_trip.2.1 (NewClient 10 false 0) [rA, rG, rM] 50⟩

/-- A state reachable by a successful web refresh in which all three
fetchers returned empty lists at time 50: the cache is empty but the
write time is recent. -/
def stEmptyFresh : ClientState :=
  (refreshCacheFromWeb (NewClient 10 false 0)
    (envNoDisk (Except.ok []) (Except.ok []) (Except.ok []) 50)).1

/-- An environment at time 55 in which all three fetchers succeed with
the sample records. -/
def envGood55 : Env :=
  envNoDisk (Except.ok [rA]) (Except.ok [rG]) (Except.ok [rM]) 55

/-- C2 counterexample: the claim quantifies over every `Resolve` call
made while the cached record list is empty, but an empty cache with a
recent write time (reachable: a successful web refresh whose three
fetchers all returned empty lists) makes `Resolve` skip the refresh
entirely — the inner staleness re-check `writeTime + TTL < now` fails
— and return `ErrNotCloudIP` even though valid data covering the
queried IP is fetchable. -/
theorem c2_counterexample :
    stEmptyFresh.subnetCache = [] ∧
    (refreshCacheFromWeb (NewClient 10 false 0)
      (envNoDisk (Except.ok []) (Except.ok []) (Except.ok []) 50)).2 = none ∧
    (resolve stEmptyFresh envGood55 20).mode = RefreshMode.noRefresh ∧
    (resolve stEmptyFresh envGood55 20).refreshTrace = [] ∧
    (resolve stEmptyFresh envGood55 20).result = Except.error CdError.notCloudIP ∧
    fetchWeb envGood55 = Except.ok [rA, rG, rM] ∧
    rA.subnet.contains 20 = true :=
  ⟨rfl, rfl, rfl, rfl, rfl, rfl, rfl⟩

/-- C2 (amended): for every `Resolve` call made while the cached
record list is empty AND the write time is stale
(`writeTime + TTL < now` — which holds on a never-populated cache,
whose write time is the zero time, whenever `now > TTL`), the refresh
coordinator is invoked synchronously before the lookup scan, so the
scan runs over the records the refresh produced; in particular, with
no snapshot path configured and no refresh already in progress, a
successful fetch makes the call scan exactly the fetched records. -/
theorem c2_empty_stale_syncs (st : ClientState) (env : Env) (ip : Nat)
    (hempty : st.subnetCache = [])
    (hstale : st.cacheWriteTime + st.ttl < env.now) :
    (resolve st env ip).mode = RefreshMode.syncRefresh ∧
    (resolve st env ip).state = (refreshCache st env st.cacheWriteTime).state ∧
    (resolve st env ip).refreshTrace = (refreshCache st env st.cacheWriteTime).trace ∧
    (resolve st env ip).result =
      scanCache (refreshCache st env st.cacheWriteTime).state.subnetCache ip ∧
    (st.cacheRefreshInProgress = false → st.cacheFilePathSet = false →
      ∀ rs, fetchWeb env = Except.ok rs →
        (resolve st env ip).result = scanCache rs ip) := by
  have hkey : resolve st env ip =
      ⟨(refreshCache st env st.cacheWriteTime).state,
        scanCache (refreshCache st env st.cacheWriteTime).state.subnetCache ip,
        RefreshMode.syncRefresh,
        (refreshCache st env st.cacheWriteTime).trace⟩ := by
    simp [resolve, hempty, hstale]
  refine ⟨by rw [hkey], by rw [hkey], by rw [hkey], by rw [hkey], ?_⟩
  intro hflag hpath rs hrs
  rw [hkey]
  simp [refreshCache, refreshCacheLocked, refreshCacheFromWeb, hflag, hpath, hrs]

/-- Witness for C2 (amended): a fresh client with TTL 10 queried at
time 55 for IP 20 synchronously refreshes and resolves to the Amazon
record. -/
theorem c2_empty_stale_syncs_witness :
    (resolve (NewClient 10 false 0) envGood55 20).mode = RefreshMode.syncRefresh ∧
    (resolve (NewClient 10 false 0) envGood55 20).result =
      scanCache [rA, rG, rM] 20 :=
  ⟨(c2_empty_stale_syncs (NewClient 10 false 0) envGood55 20 rfl (by decide)).1,
   (c2_empty_stale_syncs (NewClient 10 false 0) envGood55 20 rfl (by decide)).2.2.2.2
     rfl rfl [rA, rG, rM] rfl⟩

/-- C3: `refreshCache` called with the in-progress flag already set
returns `ErrCacheRefreshInProgress` and leaves the whole state — in
particular records, writeTime and source — untouched; hence, of two
overlapping calls on a fresh client, the first proceeds past the Start
step (its trace begins with `begun`) and a second call arriving while
the first holds the flag fails with `ErrCacheRefreshInProgress`
without modifying anything. -/
theorem c3_single_flight :
    (∀ st env m, st.cacheRefreshInProgress = true →
        refreshCache st env m = ⟨st, some CdError.cacheRefreshInProgress, []⟩) ∧
    (∀ st env m env2 m2, st.cacheRefreshInProgress = false →
        (refreshCache st env m).trace.head? = some Event.begun ∧
        refreshCache { st with cacheRefreshInProgress := true } env2 m2 =
          ⟨{ st with cacheRefreshInProgress := true },
            some CdError.cacheRefreshInProgress, []⟩) := by
  constructor
  · intro st env m h
    simp [refreshCache, h]
  · intro st env m env2 m2 h
    constructor
    · simp [refreshCache, h]
    · simp [refreshCache]

/-- Witness for C3: on a fresh client, the first call proceeds and an
overlapping second call fails with `ErrCacheRefreshInProgress`. -/
theorem c3_single_flight_witness :
    (refreshCache (NewClient 10 false 0) envGood55 0).trace.head? =
      some Event.begun ∧
    refreshCache { NewClient 10 false 0 with cacheRefreshInProgress := true }
        envGood55 0 =
      ⟨{ NewClient 10 false 0 with cacheRefreshInProgress := true },
        some CdError.cacheRefreshInProgress, []⟩ :=
  c3_single_flight.2 (NewClient 10 false 0) envGood55 0 envGood55 0 rfl

/-- C6: a `Resolve` call on a non-empty cache whose `writeTime + TTL`
is before now first bumps writeTime to now, hands the OLD writeTime as
`minModTime` to the background refresh, and itself scans the records
already held (its result is computed from the pre-refresh cache, so it
never blocks on the background refresh); after the bump, lookups whose
`now` is within TTL of the bumped writeTime trigger no further
refresh. -/
theorem c6_stale_nonempty_async (st : ClientState) (env : Env) (ip : Nat)
    (hne : st.subnetCache ≠ [])
    (hstale : st.cacheWriteTime + st.ttl < env.now) :
    (resolve st env ip).mode = RefreshMode.asyncRefresh st.cacheWriteTime ∧
    (resolve st env ip).state = { st with cacheWriteTime := env.now } ∧
    (resolve st env ip).result = scanCache st.subnetCache ip ∧
    (∀ env2 ip2, env2.now ≤ env.now + st.ttl →
      (resolve { st with cacheWriteTime := env.now } env2 ip2).mode =
        RefreshMode.noRefresh) := by
  have hne' : st.subnetCache.isEmpty = false := by
    simpa [List.isEmpty_iff] using hne
  have hkey : resolve st env ip =
      ⟨{ st with cacheWriteTime := env.now },
        scanCache st.subnetCache ip,
        RefreshMode.asyncRefresh st.cacheWriteTime, []⟩ := by
    simp [resolve, hne', hstale]
  refine ⟨by rw [hkey], by rw [hkey], by rw [hkey], ?_⟩
  intro env2 ip2 h2
  have hnot : ¬ env.now + st.ttl < env2.now := not_lt.mpr h2
  simp [resolve, hne', hnot]

/-- Witness for C6: a client holding the Amazon record with writeTime
40 and TTL 10 queried at time 55 bumps writeTime, schedules a
background refresh with `minModTime = 40`, and still answers from the
held record. -/
theorem c6_stale_nonempty_async_witness :
    (resolve { NewClient 10 false 0 with
        subnetCache := [rA], cacheWriteTime := 40 } envGood55 20).mode =
      RefreshMode.asyncRefresh 40 ∧
    (resolve { NewClient 10 false 0 with
        subnetCache := [rA], cacheWriteTime := 40 } envGood55 20).result =
      scanCache [rA] 20 :=
  ⟨(c6_stale_nonempty_async { NewClient 10 false 0 with
      subnetCache := [rA], cacheWriteTime := 40 } envGood55 20
      (by decide) (by decide)).1,
   (c6_stale_nonempty_async { NewClient 10 false 0 with
      subnetCache := [rA], cacheWriteTime := 40 } envGood55 20
      (by decide) (by decide)).2.2.1⟩

/-! ## Branch lemmas for the refresh coordinator -/

theorem refreshCacheFromWeb_cases (st : ClientState) (env : Env) :
    (refreshCacheFromWeb st env).1 = st ∨ (refreshCacheFromWeb st env).2 = none := by
  cases hf : fetchWeb env with
  | error e => exact Or.inl (by simp [refreshCacheFromWeb, hf])
  | ok rs => exact Or.inr (by simp [refreshCacheFromWeb, hf])

theorem refreshCacheFromDisk_cases (st : ClientState) (f : Option DiskFile) (m : Nat) :
    (refreshCacheFromDisk st f m).1 = st ∨ (refreshCacheFromDisk st f m).2 = none := by
  cases f with
  | none => exact Or.inl rfl
  | some f2 =>
    by_cases hm : f2.modTime < m
    · exact Or.inl (by simp [refreshCacheFromDisk, hm])
    · cases hd : decodeCache f2.data with
      | none => exact Or.inl (by simp [refreshCacheFromDisk, hm, hd])
      | some rs => exact Or.inr (by simp [refreshCacheFromDisk, hm, hd])

theorem refreshCacheFromDisk_config (st : ClientState) (f : Option DiskFile) (m : Nat) :
    (refreshCacheFromDisk st f m).1.ttl = st.ttl ∧
    (refreshCacheFromDisk st f m).1.cacheRefreshTimeout = st.cacheRefreshTimeout ∧
    (refreshCacheFromDisk st f m).1.cacheFilePathSet = st.cacheFilePathSet := by
  cases f with
  | none => exact ⟨rfl, rfl, rfl⟩
  | some f2 =>
    by_cases hm : f2.modTime < m
    · refine ⟨?_, ?_, ?_⟩ <;> simp [refreshCacheFromDisk, hm]
    · cases hd : decodeCache f2.data with
      | none => refine ⟨?_, ?_, ?_⟩ <;> simp [refreshCacheFromDisk, hm, hd]
      | some rs => refine ⟨?_, ?_, ?_⟩ <;> simp [refreshCacheFromDisk, hm, hd]

theorem RefreshCache_in_progress (s : ClientState) (env : Env)
    (h : s.cacheRefreshInProgress = true) :
    RefreshCache s env = ⟨s, some CdError.cacheRefreshInProgress, []⟩ := by
  simp [RefreshCache, refreshCache, h]

theorem refreshCache_run (st : ClientState) (env : Env) (m : Nat)
    (hf : st.cacheRefreshInProgress = false) :
    refreshCache st env m =
      ⟨(refreshCacheLocked { st with cacheRefreshInProgress := true } env m).state,
       (refreshCacheLocked { st with cacheRefreshInProgress := true } env m).err,
       Event.begun ::
         (refreshCacheLocked { st with cacheRefreshInProgress := true } env m).trace⟩ := by
  simp [refreshCache, hf]

theorem locked_no_path (st0 : ClientState) (env : Env) (m : Nat)
    (hp : st0.cacheFilePathSet = false) :
    refreshCacheLocked st0 env m =
      ⟨(refreshCacheFromWeb st0 env).1, (refreshCacheFromWeb st0 env).2,
        [Event.webFetch]⟩ := by
  simp [refreshCacheLocked, hp]

theorem locked_with_path_not_fresh (st0 : ClientState) (env : Env) (m : Nat)
    (hp : st0.cacheFilePathSet = true)
    (hnf : ¬ ((refreshCacheFromDisk st0 env.diskFile m).2 = none ∧
        env.now < (refreshCacheFromDisk st0 env.diskFile m).1.cacheWriteTime +
          (refreshCacheFromDisk st0 env.diskFile m).1.ttl)) :
    refreshCacheLocked st0 env m =
      ⟨(refreshCacheLockStage (refreshCacheFromDisk st0 env.diskFile m).1 env).state,
       (refreshCacheLockStage (refreshCacheFromDisk st0 env.diskFile m).1 env).err,
       Event.diskLoad m ::
         (refreshCacheLockStage (refreshCacheFromDisk st0 env.diskFile m).1 env).trace⟩ := by
  simp [refreshCacheLocked, hp, hnf]

theorem lockStage_no_lock (st1 : ClientState) (env : Env)
    (hl : env.lockStat = none) :
    refreshCacheLockStage st1 env =
      ⟨(refreshCacheFromWeb st1 env).1, (refreshCacheFromWeb st1 env).2,
        [Event.createLock, Event.webFetch]⟩ := by
  simp [refreshCacheLockStage, hl]

theorem lockStage_stale_lock (st1 : ClientState) (env : Env) (lockM : Nat)
    (hl : env.lockStat = some lockM) (hs : lockM + st1.ttl < env.now) :
    refreshCacheLockStage st1 env =
      ⟨(refreshCacheFromWeb st1 env).1, (refreshCacheFromWeb st1 env).2,
        [Event.statLock, Event.removeLock, Event.webFetch]⟩ := by
  simp [refreshCacheLockStage, hl, hs]

theorem lockStage_wait_lockGone (st1 : ClientState) (env : Env) (lockM : Nat)
    (hl : env.lockStat = some lockM) (hs : ¬ lockM + st1.ttl < env.now)
    (hw : waitLoopFrom env.waitStats (waitIterations st1.cacheRefreshTimeout) 0 =
      WaitOutcome.lockGone) :
    refreshCacheLockStage st1 env =
      ⟨(refreshCacheFromDisk st1 env.diskFileAfterWait 0).1,
       (refreshCacheFromDisk st1 env.diskFileAfterWait 0).2,
        [Event.statLock, Event.diskLoad 0]⟩ := by
  simp [refreshCacheLockStage, hl, hs, hw]

theorem lockStage_wait_statFailed (st1 : ClientState) (env : Env) (lockM : Nat)
    (hl : env.lockStat = some lockM) (hs : ¬ lockM + st1.ttl < env.now)
    (hw : waitLoopFrom env.waitStats (waitIterations st1.cacheRefreshTimeout) 0 =
      WaitOutcome.statFailed) :
    refreshCacheLockStage st1 env =
      ⟨(refreshCacheFromWeb st1 env).1, (refreshCacheFromWeb st1 env).2,
        [Event.statLock, Event.webFetch]⟩ := by
  simp [refreshCacheLockStage, hl, hs, hw]

theorem lockStage_wait_timeout (st1 : ClientState) (env : Env) (lockM : Nat)
    (hl : env.lockStat = some lockM) (hs : ¬ lockM + st1.ttl < env.now)
    (hw : waitLoopFrom env.waitStats (waitIterations st1.cacheRefreshTimeout) 0 =
      WaitOutcome.timeout) :
    refreshCacheLockStage st1 env =
      ⟨(refreshCacheFromWeb st1 env).1, (refreshCacheFromWeb st1 env).2,
        [Event.statLock, Event.webFetch]⟩ := by
  simp [refreshCacheLockStage, hl, hs, hw]

theorem refreshCacheLockStage_cases (st1 : ClientState) (env : Env) :
    (refreshCacheLockStage st1 env).state = st1 ∨
    (refreshCacheLockStage st1 env).err = none := by
  cases hl : env.lockStat with
  | none =>
    rw [lockStage_no_lock st1 env hl]
    exact refreshCacheFromWeb_cases st1 env
  | some lockM =>
    by_cases hs : lockM + st1.ttl < env.now
    · rw [lockStage_stale_lock st1 env lockM hl hs]
      exact refreshCacheFromWeb_cases st1 env
    · cases hw : waitLoopFrom env.waitStats (waitIterations st1.cacheRefreshTimeout) 0 with
      | timeout =>
        rw [lockStage_wait_timeout st1 env lockM hl hs hw]
        exact refreshCacheFromWeb_cases st1 env
      | lockGone =>
        rw [lockStage_wait_lockGone st1 env lockM hl hs hw]
        exact refreshCacheFromDisk_cases st1 env.diskFileAfterWait 0
      | statFailed =>
        rw [lockStage_wait_statFailed st1 env lockM hl hs hw]
        exact refreshCacheFromWeb_cases st1 env

theorem waitLoopFrom_all_present (stats : Nat → WaitStat) :
    ∀ fuel i, (∀ j, i ≤ j → j < i + fuel → stats j = WaitStat.present) →
      waitLoopFrom stats fuel i = WaitOutcome.timeout := by
  intro fuel
  induction fuel with
  | zero => intro i _; rfl
  | succ n ih =>
    intro i h
    have hi : stats i = WaitStat.present := h i le_rfl (by omega)
    simp only [waitLoopFrom, hi]
    exact ih (i + 1) fun j hj1 hj2 => h j (by omega) (by omega)

/-! ## Claims about the refresh coordinator -/

/-- C4 (amended): a fetcher error during the web-fetch step makes
`refreshCacheFromWeb` return exactly that fetcher's error with the
whole client state — record list, writeTime, source — unchanged
(fetchers after the failing one are never consulted, and records from
fetchers that had already succeeded are discarded, never committed);
with no snapshot path configured, the enclosing `RefreshCache` call
likewise returns exactly that fetcher's error with records, writeTime
and source unchanged (only the in-progress flag is left set).  As
stated the original claim also asserted this for calls that committed
a stale disk snapshot earlier in the same run, where it fails (see the
counterexample). -/
theorem c4_fetch_error_aborts :
    (∀ st env e, env.amazon = Except.error e →
        refreshCacheFromWeb st env = (st, some (CdError.fetchError e))) ∧
    (∀ st env a e, env.amazon = Except.ok a → env.google = Except.error e →
        refreshCacheFromWeb st env = (st, some (CdError.fetchError e))) ∧
    (∀ st env a g e, env.amazon = Except.ok a → env.google = Except.ok g →
        env.microsoft = Except.error e →
        refreshCacheFromWeb st env = (st, some (CdError.fetchError e))) ∧
    (∀ st env e, st.cacheRefreshInProgress = false → st.cacheFilePathSet = false →
        fetchWeb env = Except.error e →
        RefreshCache st env =
          ⟨{ st with cacheRefreshInProgress := true },
            some (CdError.fetchError e), [Event.begun, Event.webFetch]⟩) := by
  refine ⟨fun st env e ha => ?_, fun st env a e ha hg => ?_,
    fun st env a g e ha hg hm => ?_, fun st env e hflag hpath hfetch => ?_⟩
  · simp [refreshCacheFromWeb, fetchWeb, ha]
  · simp [refreshCacheFromWeb, fetchWeb, ha, hg]
  · simp [refreshCacheFromWeb, fetchWeb, ha, hg, hm]
  · rw [RefreshCache, refreshCache_run st env st.cacheWriteTime hflag,
      locked_no_path { st with cacheRefreshInProgress := true } env
        st.cacheWriteTime hpath]
    simp [refreshCacheFromWeb, hfetch]

/-- Witness for C4 (amended): with no snapshot path, an Amazon outage
surfaces as exactly that error and nothing but the flag changes. -/
theorem c4_fetch_error_aborts_witness :
    RefreshCache (NewClient 10 false 0)
        (envNoDisk (Except.error "amazon down") (Except.ok [rG]) (Except.ok [rM]) 55) =
      ⟨{ NewClient 10 false 0 with cacheRefreshInProgress := true },
        some (CdError.fetchError "amazon down"),
        [Event.begun, Event.webFetch]⟩ :=
  c4_fetch_error_aborts.2.2.2 (NewClient 10 false 0)
    (envNoDisk (Except.error "amazon down") (Except.ok [rG]) (Except.ok [rM]) 55)
    "amazon down" rfl rfl rfl

/-- A fresh client with a snapshot path configured, TTL 10 and no
refresh timeout budget. -/
def stW : ClientState := NewClient 10 true 0

/-- An environment in which the snapshot on disk is readable but stale
(mtime 5, now 100), there is no lock file, and the Amazon fetcher is
down while the others succeed. -/
def env4 : Env :=
  { now := 100
    amazon := Except.error "amazon down"
    google := Except.ok [rG]
    microsoft := Except.ok [rM]
    diskFile := some (persistSnapshot [rM] 5)
    diskFileAfterWait := none
    lockStat := none
    waitStats := fun _ => WaitStat.present }

/-- C4 counterexample: with a snapshot path configured and a stale but
readable snapshot on disk, `RefreshCache` first commits the disk data
(records, writeTime and source all change) and only then attempts the
web fetch; when a fetcher then fails, the call returns that fetcher's
error even though the record list, writeTime and source were NOT left
unchanged — refuting the claim's unconditional "left unchanged". -/
theorem c4_counterexample :
    (RefreshCache stW env4).err = some (CdError.fetchError "amazon down") ∧
    (RefreshCache stW env4).state.subnetCache ≠ stW.subnetCache ∧
    (RefreshCache stW env4).state.cacheWriteTime ≠ stW.cacheWriteTime ∧
    (RefreshCache stW env4).state.cacheSource ≠ stW.cacheSource := by
  refine ⟨rfl, ?_, ?_, ?_⟩ <;> decide

/-- C5 (amended): if a `RefreshCache` call returns an error and did
not commit disk data during the run (no snapshot path configured, or
the initial disk load failed), the in-progress flag is left set — no
error path clears it — so every subsequent `RefreshCache` call on that
client, whatever its environment, returns `ErrCacheRefreshInProgress`
and changes nothing.  The original claim asserted this for every
web-fetch failure; it fails when the same call committed a stale disk
snapshot first, because that commit cleared the flag (see the
counterexample). -/
theorem c5_failed_refresh_wedges_client (st : ClientState) (env : Env) (e : CdError)
    (hdisk : st.cacheFilePathSet = false ∨
      (refreshCacheFromDisk { st with cacheRefreshInProgress := true }
        env.diskFile st.cacheWriteTime).2 ≠ none)
    (herr : (RefreshCache st env).err = some e) :
    (RefreshCache st env).state.cacheRefreshInProgress = true ∧
    (∀ env2, RefreshCache (RefreshCache st env).state env2 =
      ⟨(RefreshCache st env).state, some CdError.cacheRefreshInProgress, []⟩) := by
  have hflag : (RefreshCache st env).state.cacheRefreshInProgress = true := by
    by_cases hp : st.cacheRefreshInProgress = true
    · have h1 : RefreshCache st env = ⟨st, some CdError.cacheRefreshInProgress, []⟩ := by
        simp [RefreshCache, refreshCache, hp]
      rw [h1]
      exact hp
    · have hpf : st.cacheRefreshInProgress = false := by simpa using hp
      rw [RefreshCache, refreshCache_run st env st.cacheWriteTime hpf] at herr ⊢
      by_cases hpath : st.cacheFilePathSet = true
      · rcases hdisk with hq | hq
        · rw [hpath] at hq; exact absurd hq (by simp)
        · have hnf : ¬ ((refreshCacheFromDisk { st with cacheRefreshInProgress := true }
              env.diskFile st.cacheWriteTime).2 = none ∧
              env.now < (refreshCacheFromDisk { st with cacheRefreshInProgress := true }
                env.diskFile st.cacheWriteTime).1.cacheWriteTime +
                (refreshCacheFromDisk { st with cacheRefreshInProgress := true }
                  env.diskFile st.cacheWriteTime).1.ttl) :=
            fun hc => hq hc.1
          rw [locked_with_path_not_fresh { st with cacheRefreshInProgress := true }
            env st.cacheWriteTime hpath hnf] at herr ⊢
          rcases refreshCacheLockStage_cases
              (refreshCacheFromDisk { st with cacheRefreshInProgress := true }
                env.diskFile st.cacheWriteTime).1 env with hst | hnone
          · rw [hst]
            rcases refreshCacheFromDisk_cases
                { st with cacheRefreshInProgress := true }
                env.diskFile st.cacheWriteTime with hdk | hdn
            · rw [hdk]
            · exact absurd hdn hq
          · rw [hnone] at herr; exact absurd herr (by simp)
      · have hpn : st.cacheFilePathSet = false := by simpa using hpath
        rw [locked_no_path { st with cacheRefreshInProgress := true }
          env st.cacheWriteTime hpn] at herr ⊢
        rcases refreshCacheFromWeb_cases
            { st with cacheRefreshInProgress := true } env with hst | hnone
        · rw [hst]
        · rw [hnone] at herr; exact absurd herr (by simp)
  exact ⟨hflag, fun env2 => RefreshCache_in_progress _ env2 hflag⟩

/-- Witness for C5 (amended): after a failed no-disk refresh the
client is wedged — a later call in a fully healthy environment still
reports `ErrCacheRefreshInProgress`. -/
theorem c5_failed_refresh_wedges_client_witness :
    (RefreshCache (NewClient 10 false 0)
      (envNoDisk (Except.error "amazon down") (Except.ok [rG]) (Except.ok [rM]) 55)).state.cacheRefreshInProgress = true ∧
    RefreshCache (RefreshCache (NewClient 10 false 0)
        (envNoDisk (Except.error "amazon down") (Except.ok [rG]) (Except.ok [rM]) 55)).state
        envGood55 =
      ⟨(RefreshCache (NewClient 10 false 0)
          (envNoDisk (Except.error "amazon down") (Except.ok [rG]) (Except.ok [rM]) 55)).state,
        some CdError.cacheRefreshInProgress, []⟩ :=
  ⟨(c5_failed_refresh_wedges_client (NewClient 10 false 0)
      (envNoDisk (Except.error "amazon down") (Except.ok [rG]) (Except.ok [rM]) 55)
      (CdError.fetchError "amazon down") (Or.inl rfl) rfl).1,
   (c5_failed_refresh_wedges_client (NewClient 10 false 0)
      (envNoDisk (Except.error "amazon down") (Except.ok [rG]) (Except.ok [rM]) 55)
      (CdError.fetchError "amazon down") (Or.inl rfl) rfl).2 envGood55⟩

/-- C5 counterexample: with a snapshot path and a stale readable
snapshot, the disk commit inside the failing call clears the
in-progress flag BEFORE the web fetch errors, so the flag is not set
when the call returns its error, and the next `RefreshCache` call does
not return `ErrCacheRefreshInProgress` — it runs again and reproduces
the fetcher error. -/
theorem c5_counterexample :
    (RefreshCache stW env4).err = some (CdError.fetchError "amazon down") ∧
    (RefreshCache stW env4).state.cacheRefreshInProgress = false ∧
    (RefreshCache (RefreshCache stW env4).state env4).err =
      some (CdError.fetchError "amazon down") ∧
    (RefreshCache (RefreshCache stW env4).state env4).err ≠
      some CdError.cacheRefreshInProgress := by
  refine ⟨rfl, rfl, rfl, ?_⟩
  decide

/-- An environment at time 100 with healthy fetchers, no readable
snapshot, and a stale lock file (mtime 5, so 5 + TTL < 100). -/
def env7 : Env :=
  { now := 100
    amazon := Except.ok [rA]
    google := Except.ok [rG]
    microsoft := Except.ok [rM]
    diskFile := none
    diskFileAfterWait := none
    lockStat := some 5
    waitStats := fun _ => WaitStat.present }

/-- C7 counterexample: the claim says an abandoned (older-than-TTL)
lease marker is deleted and the whole operation RESTARTS from the
Start step.  A restart would re-execute `beginRefresh` — whose
in-progress check, the flag being set, would surface
`ErrCacheRefreshInProgress` — or at least re-run the DiskCheck,
producing a second disk load.  The actual run's trace shows exactly
one Start (`begun`) and one disk load, with the web fetch immediately
after the marker removal, and the run succeeds: the code goes straight
to the web fetch with no restart. -/
theorem c7_counterexample :
    (refreshCache stW env7 0).trace =
      [Event.begun, Event.diskLoad 0, Event.statLock,
        Event.removeLock, Event.webFetch] ∧
    (refreshCache stW env7 0).trace.count Event.begun = 1 ∧
    (refreshCache stW env7 0).trace.count (Event.diskLoad 0) = 1 ∧
    (refreshCache stW env7 0).err = none := by
  refine ⟨rfl, ?_, ?_, rfl⟩ <;> decide

/-- C7 (amended): when the coordinator finds a lease-marker file whose
modification time is older than TTL, it deletes the marker and
proceeds DIRECTLY to the web fetch (no restart from the Start step);
the abandoned lease is superseded by a fresh web fetch. -/
theorem c7_stale_lease_direct_web (st : ClientState) (env : Env)
    (m lockM : Nat) (p1 : ClientState) (e1 : Option CdError)
    (hp1 : p1 = (refreshCacheFromDisk { st with cacheRefreshInProgress := true }
      env.diskFile m).1)
    (he1 : e1 = (refreshCacheFromDisk { st with cacheRefreshInProgress := true }
      env.diskFile m).2)
    (hflag : st.cacheRefreshInProgress = false)
    (hpath : st.cacheFilePathSet = true)
    (hnf : ¬ (e1 = none ∧ env.now < p1.cacheWriteTime + p1.ttl))
    (hl : env.lockStat = some lockM)
    (hs : lockM + st.ttl < env.now) :
    refreshCache st env m =
      ⟨(refreshCacheFromWeb p1 env).1, (refreshCacheFromWeb p1 env).2,
        [Event.begun, Event.diskLoad m, Event.statLock,
          Event.removeLock, Event.webFetch]⟩ := by
  subst hp1; subst he1
  have hs2 : lockM + (refreshCacheFromDisk { st with cacheRefreshInProgress := true }
      env.diskFile m).1.ttl < env.now := by
    rw [(refreshCacheFromDisk_config { st with cacheRefreshInProgress := true }
      env.diskFile m).1]
    exact hs
  rw [refreshCache_run st env m hflag,
    locked_with_path_not_fresh { st with cacheRefreshInProgress := true }
      env m hpath hnf,
    lockStage_stale_lock (refreshCacheFromDisk { st with cacheRefreshInProgress := true }
      env.diskFile m).1 env lockM hl hs2]

/-- Witness for C7 (amended): with no readable snapshot and a stale
lock at mtime 5, the run removes the lock and commits a fresh web
fetch. -/
theorem c7_stale_lease_direct_web_witness :
    refreshCache stW env7 0 =
      ⟨(refreshCacheFromWeb { stW with cacheRefreshInProgress := true } env7).1,
       (refreshCacheFromWeb { stW with cacheRefreshInProgress := true } env7).2,
        [Event.begun, Event.diskLoad 0, Event.statLock,
          Event.removeLock, Event.webFetch]⟩ :=
  c7_stale_lease_direct_web stW env7 0 5
    { stW with cacheRefreshInProgress := true } (some (CdError.ioError "open"))
    rfl rfl rfl rfl (by decide) rfl (by decide)

/-- C8: with a fresh lease marker the coordinator enters the wait loop
(one 5-second sleep per iteration, at most ceil(CacheRefreshTimeout/5s)
iterations); if an iteration finds the marker gone, the run terminates
with the result of a disk reload at zero `minModTime` (accepting
whatever is on disk); if an iteration's stat fails with another error,
the run proceeds to the web fetch; and if every iteration of the
budget still sees the marker, the loop times out and the run proceeds
to the web fetch without ever deleting the marker. -/
theorem c8_fresh_lease_wait_loop (st : ClientState) (env : Env)
    (m lockM : Nat) (p1 : ClientState) (e1 : Option CdError)
    (hp1 : p1 = (refreshCacheFromDisk { st with cacheRefreshInProgress := true }
      env.diskFile m).1)
    (he1 : e1 = (refreshCacheFromDisk { st with cacheRefreshInProgress := true }
      env.diskFile m).2)
    (hflag : st.cacheRefreshInProgress = false)
    (hpath : st.cacheFilePathSet = true)
    (hnf : ¬ (e1 = none ∧ env.now < p1.cacheWriteTime + p1.ttl))
    (hl : env.lockStat = some lockM)
    (hs : ¬ lockM + st.ttl < env.now) :
    (waitLoopFrom env.waitStats (waitIterations st.cacheRefreshTimeout) 0 =
        WaitOutcome.lockGone →
      refreshCache st env m =
        ⟨(refreshCacheFromDisk p1 env.diskFileAfterWait 0).1,
         (refreshCacheFromDisk p1 env.diskFileAfterWait 0).2,
          [Event.begun, Event.diskLoad m, Event.statLock, Event.diskLoad 0]⟩) ∧
    (waitLoopFrom env.waitStats (waitIterations st.cacheRefreshTimeout) 0 =
        WaitOutcome.statFailed →
      refreshCache st env m =
        ⟨(refreshCacheFromWeb p1 env).1, (refreshCacheFromWeb p1 env).2,
          [Event.begun, Event.diskLoad m, Event.statLock, Event.webFetch]⟩) ∧
    ((∀ i, i < waitIterations st.cacheRefreshTimeout →
        env.waitStats i = WaitStat.present) →
      waitLoopFrom env.waitStats (waitIterations st.cacheRefreshTimeout) 0 =
        WaitOutcome.timeout ∧
      refreshCache st env m =
        ⟨(refreshCacheFromWeb p1 env).1, (refreshCacheFromWeb p1 env).2,
          [Event.begun, Event.diskLoad m, Event.statLock, Event.webFetch]⟩ ∧
      Event.removeLock ∉ (refreshCache st env m).trace) := by
  subst hp1; subst he1
  have hs2 : ¬ lockM + (refreshCacheFromDisk { st with cacheRefreshInProgress := true }
      env.diskFile m).1.ttl < env.now := by
    rw [(refreshCacheFromDisk_config { st with cacheRefreshInProgress := true }
      env.diskFile m).1]
    exact hs
  have hto : (refreshCacheFromDisk { st with cacheRefreshInProgress := true }
      env.diskFile m).1.cacheRefreshTimeout = st.cacheRefreshTimeout :=
    (refreshCacheFromDisk_config { st with cacheRefreshInProgress := true }
      env.diskFile m).2.1
  refine ⟨fun hw => ?_, fun hw => ?_, fun hpres => ?_⟩
  · rw [refreshCache_run st env m hflag,
      locked_with_path_not_fresh { st with cacheRefreshInProgress := true }
        env m hpath hnf,
      lockStage_wait_lockGone (refreshCacheFromDisk { st with cacheRefreshInProgress := true }
        env.diskFile m).1 env lockM hl hs2 (by rw [hto]; exact hw)]
  · rw [refreshCache_run st env m hflag,
      locked_with_path_not_fresh { st with cacheRefreshInProgress := true }
        env m hpath hnf,
      lockStage_wait_statFailed (refreshCacheFromDisk { st with cacheRefreshInProgress := true }
        env.diskFile m).1 env lockM hl hs2 (by rw [hto]; exact hw)]
  · have hw : waitLoopFrom env.waitStats (waitIterations st.cacheRefreshTimeout) 0 =
        WaitOutcome.timeout :=
      waitLoopFrom_all_present env.waitStats (waitIterations st.cacheRefreshTimeout) 0
        fun j hj1 hj2 => hpres j (by omega)
    have hrun : refreshCache st env m =
        ⟨(refreshCacheFromWeb (refreshCacheFromDisk { st with cacheRefreshInProgress := true }
            env.diskFile m).1 env).1,
         (refreshCacheFromWeb (refreshCacheFromDisk { st with cacheRefreshInProgress := true }
            env.diskFile m).1 env).2,
          [Event.begun, Event.diskLoad m, Event.statLock, Event.webFetch]⟩ := by
      rw [refreshCache_run st env m hflag,
        locked_with_path_not_fresh { st with cacheRefreshInProgress := true }
          env m hpath hnf,
        lockStage_wait_timeout (refreshCacheFromDisk { st with cacheRefreshInProgress := true }
          env.diskFile m).1 env lockM hl hs2 (by rw [hto]; exact hw)]
    refine ⟨hw, hrun, ?_⟩
    rw [hrun]
    simp

/-- A fresh client with snapshot path, TTL 10 and refresh timeout
budget 7000 (two wait-loop iterations). -/
def stW8 : ClientState := NewClient 10 true 7000

/-- An environment with a fresh lock file (mtime 95, now 100), no
initial snapshot, and a snapshot written by the lease holder appearing
on disk (mtime 90) by the time the second wait iteration finds the
lock gone. -/
def env8 : Env :=
  { now := 100
    amazon := Except.ok [rA]
    google := Except.ok [rG]
    microsoft := Except.ok [rM]
    diskFile := none
    diskFileAfterWait := some (persistSnapshot [rG] 90)
    lockStat := some 95
    waitStats := fun i => if i = 0 then WaitStat.present else WaitStat.absent }

/-- Witness for C8: the first wait iteration still sees the lock, the
second finds it gone, and the run terminates with the zero-floor disk
reload of the lease holder's snapshot. -/
theorem c8_fresh_lease_wait_loop_witness :
    refreshCache stW8 env8 0 =
      ⟨(refreshCacheFromDisk { stW8 with cacheRefreshInProgress := true }
          env8.diskFileAfterWait 0).1,
       (refreshCacheFromDisk { stW8 with cacheRefreshInProgress := true }
          env8.diskFileAfterWait 0).2,
        [Event.begun, Event.diskLoad 0, Event.statLock, Event.diskLoad 0]⟩ :=
  (c8_fresh_lease_wait_loop stW8 env8 0 95
    { stW8 with cacheRefreshInProgress := true } (some (CdError.ioError "open"))
    rfl rfl rfl rfl (by decide) rfl (by decide)).1 rfl

end Clouddetect
